import Mathlib

/-!
Verification development for the Cephalus online-RL kernel.

Shallow embedding of the core of `cephalus/kernel.py`, `cephalus/frame.py`,
`cephalus/q/td.py` and `cephalus/modules/state_prediction.py`.  Scalar tensor
values are modelled as rationals (`ℚ`); a tensor that may hold NaN is modelled
with the `TVal` type.  Python `assert` failures and other fatal errors are
modelled with `Except String`.  External collaborators (Keras models, the
optimizer, the environment, the action policy) appear as parameters holding
the values they would produce.
-/

/-- Scalar tensor entry: either NaN or a finite value (modelled as `ℚ`). -/
inductive TVal where
  | nan : TVal
  | fin : ℚ → TVal
deriving DecidableEq

/-- Test for NaN, modelling `tf.math.is_nan` on one entry. -/
def TVal.isNan : TVal → Bool
  | .nan => true
  | .fin _ => false

/-- Elementwise `tf.clip_by_value(x, lo, hi)` on one entry. -/
def TVal.clip (lo hi : ℚ) : TVal → TVal
  | .nan => .nan
  | .fin q => .fin (min (max q lo) hi)

/-- One decision of the TD agent (`cephalus.q.action_policies.ActionDecision`),
holding the fields `cephalus/q/td.py` reads and writes.  The state input, the
Q-model handle and the selected action are external tensors/objects and are
not modelled. -/
structure ActionDecision where
  step : ℕ
  selected_q_value_prediction : ℚ
  exploit_q_value_prediction : ℚ
  exploit_confidence : ℚ
  reward : Option ℚ := none
  q_value_target : Option ℚ := none
  q_value_target_confidence : Option ℚ := none
deriving DecidableEq

/-- State of a `TDAgent` (`cephalus/q/td.py`).  `discount` models the
constant-or-callable discount: `get_discount` always calls it on the current
`(episodes, total_steps)` pair, which subsumes the constant case. -/
structure TDAgent where
  discount : ℕ → ℕ → ℚ
  stabilize : Bool
  max_observable_reward : Option ℚ := none
  min_observable_reward : Option ℚ := none
  episodes : ℕ := 0
  total_steps : ℕ := 0
  previous_decision : Option ActionDecision := none
  current_decision : Option ActionDecision := none

/-- `TDAgent.get_discount`: a callable discount is re-evaluated on the current
counters each time; a constant discount is the constant function. -/
def TDAgent.get_discount (a : TDAgent) : ℚ :=
  a.discount a.episodes a.total_steps

/-- `TDAgent._update_previous_decision` (td.py lines 53-86).  Computes the TD
target for the previous decision from the current decision's exploit Q-value
prediction (clamped to the observed reward bounds when `stabilize` is set), or
from the end-of-episode value zero when there is no current decision. -/
def TDAgent.update_previous_decision (a : TDAgent) : Except String TDAgent :=
  match a.previous_decision with
  | none => .ok a
  | some prev =>
    match prev.reward with
    | none => .error "assert self._previous_decision.reward is not None"
    | some r =>
      if prev.q_value_target.isSome then
        .error "assert self._previous_decision.q_value_target is None"
      else
        match a.current_decision with
        | some cur =>
          if cur.reward.isSome then
            .error "assert self._current_decision.reward is None"
          else
            let prediction := cur.exploit_q_value_prediction
            let prediction_confidence := cur.exploit_confidence
            let discount := a.get_discount
            let p1 :=
              match a.min_observable_reward with
              | some mn => max prediction mn
              | none => prediction
            let p2 :=
              match a.max_observable_reward with
              | some mx => min p1 mx
              | none => p1
            let previous_q_value :=
              if a.stabilize then (r + discount * p2) / (1 + discount)
              else r + discount * prediction
            let prev' := { prev with
                           q_value_target := some previous_q_value,
                           q_value_target_confidence := some prediction_confidence }
            .ok { a with previous_decision := some prev' }
        | none =>
          let prediction_confidence : ℚ := 1
          let previous_q_value :=
            if a.stabilize then r / (1 + a.get_discount) else r
          let prev' := { prev with
                         q_value_target := some previous_q_value,
                         q_value_target_confidence := some prediction_confidence }
          .ok { a with previous_decision := some prev' }

/-- `TDAgent._close_previous_decision` (td.py lines 88-100).  The loss the
source computes via `action_policy.get_loss(previous_decision)` is modelled by
returning the closed decision itself (`none` when there was none); the slots
shift by one. -/
def TDAgent.close_previous_decision (a : TDAgent) : Option ActionDecision × TDAgent :=
  (a.previous_decision,
   { a with previous_decision := a.current_decision, current_decision := none })

/-- `TDAgent.reset` (td.py lines 102-124): bump the episode counter, finalize
the previous decision's target, fold an implicit reward observation of `0.0`
into the running bounds when stabilizing, and close out the previous
decision. -/
def TDAgent.reset (a : TDAgent) : Except String (Option ActionDecision × TDAgent) :=
  let a1 := { a with episodes := a.episodes + 1 }
  match a1.update_previous_decision with
  | .error e => .error e
  | .ok a2 =>
    let a3 :=
      if a2.stabilize then
        let reward : ℚ := 0
        { a2 with
          max_observable_reward :=
            some (match a2.max_observable_reward with
                  | none => reward
                  | some m => max reward m),
          min_observable_reward :=
            some (match a2.min_observable_reward with
                  | none => reward
                  | some m => min reward m) }
      else a2
    .ok a3.close_previous_decision

/-- Values produced by the external action policy when it fills in a fresh
`ActionDecision` during `choose_action`. -/
structure PolicyChoice where
  selected_q_value_prediction : ℚ
  exploit_q_value_prediction : ℚ
  exploit_confidence : ℚ
deriving DecidableEq

/-- `TDAgent.choose_action` (td.py lines 126-136): requires that no decision is
pending, builds a new decision at the next step index (filled by the action
policy), installs it as current, then finalizes the previous decision. -/
def TDAgent.choose_action (a : TDAgent) (choice : PolicyChoice) : Except String TDAgent :=
  if a.current_decision.isSome then
    .error "assert self._current_decision is None"
  else
    let step :=
      match a.previous_decision with
      | some p => p.step + 1
      | none => 0
    let decision : ActionDecision :=
      { step := step
        selected_q_value_prediction := choice.selected_q_value_prediction
        exploit_q_value_prediction := choice.exploit_q_value_prediction
        exploit_confidence := choice.exploit_confidence }
    TDAgent.update_previous_decision { a with current_decision := some decision }

/-- `TDAgent.accept_reward` (td.py lines 138-159): attach the reward to the
current decision, update the running reward bounds when stabilizing, and close
out the previous decision. -/
def TDAgent.accept_reward (a : TDAgent) (reward : ℚ) :
    Except String (Option ActionDecision × TDAgent) :=
  match a.current_decision with
  | none => .error "assert self._current_decision is not None"
  | some cur =>
    if cur.reward.isSome then
      .error "assert self._current_decision.reward is None"
    else
      let a := { a with
                  total_steps := a.total_steps + 1,
                  current_decision := some { cur with reward := some reward } }
      let a :=
        if a.stabilize then
          { a with
            max_observable_reward :=
              some (match a.max_observable_reward with
                    | none => reward
                    | some m => max reward m),
            min_observable_reward :=
              some (match a.min_observable_reward with
                    | none => reward
                    | some m => min reward m) }
        else a
      .ok a.close_previous_decision

/-- Clamp used by the spec's TD-target formula: apply the lower bound, then
the upper bound, each only when that bound has been observed.  This follows
the order of the `tf.maximum` / `tf.minimum` calls in td.py. -/
def clampToBounds (p : ℚ) (mn mx : Option ℚ) : ℚ :=
  let p1 := match mn with
            | some m => max p m
            | none => p
  match mx with
  | some m => min p1 m
  | none => p1

/-- Lifecycle view of a `StateFrame` (frame.py): whether the gradient tape is
open (`tape` is not `None`) and whether the frame has been trained.  The tape
itself is an external TensorFlow resource; only its open/closed state matters
to the kernel's control flow. -/
structure LFrame where
  tapeOpen : Bool
  trained : Bool
deriving DecidableEq

/-- A frame as produced by `StateKernel.new_frame` (kernel.py lines 310-321):
the tape is freshly opened (`new_gradient_tape`) and `trained` starts false. -/
def newLFrame : LFrame := { tapeOpen := true, trained := false }

/-- Lifecycle effect of `StateKernel.train` (kernel.py lines 351-382) on the
previous frame: asserts the frame is untrained with an open tape, then (in the
`finally` block) closes and clears the tape and sets `trained`.  The loss and
optimizer work inside the `try` block touch neither field. -/
def trainFrame (previous_frame : LFrame) : Except String LFrame :=
  if previous_frame.trained then
    .error "assert not previous_frame.trained"
  else if !previous_frame.tapeOpen then
    .error "assert previous_frame.tape is not None"
  else
    .ok { previous_frame with tapeOpen := false, trained := true }

/-- Lifecycle effect of `StateKernel.step` (kernel.py lines 98-123): a new
frame is created with an open tape, and the previous frame (when present) is
trained.  Returns the possibly-trained previous frame and the new frame. -/
def kernelStep (previous_frame : Option LFrame) : Except String (Option LFrame × LFrame) :=
  let frame := newLFrame
  match previous_frame with
  | none => .ok (none, frame)
  | some pf =>
    match trainFrame pf with
    | .error e => .error e
    | .ok pf' => .ok (some pf', frame)

/-- Run the kernel for `n` consecutive steps on one stream, each step passing
the frame returned by the last as `previous_frame`.  Returns the list of
frames that have a successor (in order) and the terminal frame, if any. -/
def kernelRun : ℕ → Except String (List LFrame × Option LFrame)
  | 0 => .ok ([], none)
  | n + 1 =>
    match kernelRun n with
    | .error e => .error e
    | .ok (done, cur) =>
      match kernelStep cur with
      | .error e => .error e
      | .ok (cur', fresh) =>
        match cur' with
        | none => .ok (done, some fresh)
        | some pf => .ok (done ++ [pf], some fresh)

/-- A kernel module's contribution to `StateKernel.get_loss` for one frame
pair: the value its `get_loss(previous_frame, current_frame)` returns (with
`None` as `none`) and its `loss_scale` property. -/
structure KernelModule where
  get_loss : Option ℚ
  loss_scale : ℚ
deriving DecidableEq

/-- `StateKernel.get_loss` (kernel.py lines 262-287): collect the scaled
losses of modules whose loss is not `None` and whose scale is positive, then
return their sum divided by the total scale (`None` when nothing was
collected).  The source's `len(losses) == 1` special case is kept. -/
def StateKernel.get_loss (modules : List KernelModule) : Except String (Option ℚ) :=
  let acc := modules.foldl
    (fun (acc : List ℚ × ℚ) m =>
      match m.get_loss with
      | some module_loss =>
        if 0 < m.loss_scale then
          (acc.1 ++ [m.loss_scale * module_loss], acc.2 + m.loss_scale)
        else acc
      | none => acc)
    ([], 0)
  let losses := acc.1
  let total_scale := acc.2
  if ¬(0 < total_scale ∨ losses = []) then
    .error "assert total_scale > 0.0 or not losses"
  else
    match losses with
    | [] => .ok none
    | [single] => .ok (some (single / total_scale))
    | ls => .ok (some (ls.sum / total_scale))

/-- The modules that actually contribute to the combined loss, as
`(loss_scale, loss)` pairs: those returning a non-`None` loss with a strictly
positive scale. -/
def contributingLosses (modules : List KernelModule) : List (ℚ × ℚ) :=
  modules.filterMap fun m =>
    match m.get_loss with
    | some l => if 0 < m.loss_scale then some (m.loss_scale, l) else none
    | none => none

/-- The fields of a `StateFrame` that `StateKernel.predict_state` reads and
writes: the gathered input tensors and the recorded current state. -/
structure KFrame where
  input_tensors : Option (List (List TVal))
  current_state : Option (List TVal)
deriving DecidableEq

/-- `StateKernel.predict_state` (kernel.py lines 338-349): asserts inputs were
gathered and no state is recorded yet, asserts the provider's prediction is
not `None` and holds no NaN, clamps it elementwise to `[-1e6, 1e6]` and
records it.  `provider_result` is what the designated state prediction
provider's `predict_state(frame)` returned. -/
def StateKernel.predict_state (frame : KFrame) (provider_result : Option (List TVal)) :
    Except String KFrame :=
  if frame.input_tensors.isNone then
    .error "assert frame.input_tensors is not None"
  else if frame.current_state.isSome then
    .error "assert frame.current_state is None"
  else
    match provider_result with
    | none => .error "assert new_state is not None"
    | some new_state =>
      if new_state.any TVal.isNan then
        .error "assert not tf.reduce_any(tf.math.is_nan(new_state))"
      else
        .ok { frame with
              current_state := some (new_state.map (TVal.clip (-1000000) 1000000)) }

/-- A state-gradient tensor, indexed elementwise. -/
def QVec (k : ℕ) : Type := Fin k → ℚ

/-- State-gradient aggregation in `StateKernel.step` (kernel.py lines
110-121): each gradient-providing module yields an optional gradient; the
non-`None` ones are collected and, when any exist, combined as
`tf.add_n(state_gradients) / len(state_gradients)` and recorded on the frame
(`none` models leaving `frame.current_state_gradient` unset). -/
def aggregateStateGradients (k : ℕ) (grads : List (Option (QVec k))) : Option (QVec k) :=
  let state_gradients := grads.filterMap id
  if state_gradients.isEmpty then none
  else
    some (fun i => ((state_gradients.map (fun g => g i)).sum / (state_gradients.length : ℚ)))

/-- The provider-designation slots of a `StateKernel`, holding the designated
module's identity (module objects themselves are external; a `ℕ` identifier
stands for one). -/
structure KernelProviders where
  state_prediction_provider : Option ℕ := none
  input_attention_provider : Option ℕ := none
  retroactive_gradient_provider : Option ℕ := none
deriving DecidableEq

/-- Setter of `StateKernel.state_prediction_provider` (kernel.py lines
167-171): asserts no provider is designated yet, then records the module. -/
def KernelProviders.set_state_prediction_provider (k : KernelProviders) (m : ℕ) :
    Except String KernelProviders :=
  if k.state_prediction_provider.isSome then
    .error "assert self._state_prediction_provider is None"
  else
    .ok { k with state_prediction_provider := some m }

/-- Setter of `StateKernel.input_attention_provider` (kernel.py lines
196-198): the source setter performs no check and simply stores the value. -/
def KernelProviders.set_input_attention_provider (k : KernelProviders) (m : ℕ) :
    Except String KernelProviders :=
  .ok { k with input_attention_provider := some m }

/-- Setter of `StateKernel.retroactive_gradient_provider` (kernel.py lines
182-190): asserts no provider is designated yet, then records the module. -/
def KernelProviders.set_retroactive_gradient_provider (k : KernelProviders) (m : ℕ) :
    Except String KernelProviders :=
  if k.retroactive_gradient_provider.isSome then
    .error "assert self._retroactive_gradient_provider is None"
  else
    .ok { k with retroactive_gradient_provider := some m }

/-- Configuration-relevant state of a `StateKernel`: the stored configuration
(a `ℕ` identifier stands for the external `StateKernelConfig` object), the
provider slots, and whether the initial state has been set. -/
structure KernelState where
  config : Option ℕ := none
  providers : KernelProviders := {}
  initial_state_set : Bool := false
deriving DecidableEq

/-- `StateKernel.configure` (kernel.py lines 74-96): asserts the kernel is not
already configured, stores the configuration, and fills in defaults — a
`StandardInputAttentionProvider` when no input-attention provider was
designated by module configuration, a `StandardStatePredictionProvider` when
no state-prediction provider was, and a zero initial state when none was set.
The per-module `module.configure(self)` calls act on external module objects
and are abstracted: `k.providers` holds the slots as module configuration
left them.  The default modules are installed through the provider setters;
since each installation is guarded by an `is None` check, the setters' asserts
cannot fire and the slot updates are inlined here. -/
def KernelState.configure (k : KernelState) (cfg : ℕ) : Except String KernelState :=
  if k.config.isSome then
    .error "Kernel is already configured."
  else
    let k1 := { k with config := some cfg }
    let k2 :=
      if k1.providers.input_attention_provider.isNone then
        { k1 with providers := { k1.providers with input_attention_provider := some 0 } }
      else k1
    let k3 :=
      if k2.providers.state_prediction_provider.isNone then
        { k2 with providers := { k2.providers with state_prediction_provider := some 1 } }
      else k2
    let k4 := if !k3.initial_state_set then { k3 with initial_state_set := true } else k3
    .ok k4

/-- A decision with its target and target confidence filled in, as
`_update_previous_decision` leaves the previous decision. -/
def withTarget (d : ActionDecision) (t conf : ℚ) : ActionDecision :=
  { d with q_value_target := some t, q_value_target_confidence := some conf }

/-- TD target as the spec states it: with stabilization,
`(r + d * clamp(p, min_r, max_r)) / (1 + d)` with each clamp applied only when
its bound has been observed; without stabilization, `r + d * p`. -/
def specTDTarget (stabilize : Bool) (r d p : ℚ) (mn mx : Option ℚ) : ℚ :=
  if stabilize then (r + d * clampToBounds p mn mx) / (1 + d)
  else r + d * p

/-- End-of-episode TD target as the spec states it: `r / (1 + d)` with
stabilization, `r` without. -/
def specEndTarget (stabilize : Bool) (r d : ℚ) : ℚ :=
  if stabilize then r / (1 + d) else r

/-- Concrete previous decision for the spec's worked TD-target example. -/
def c2Prev : ActionDecision :=
  { step := 0, selected_q_value_prediction := 1, exploit_q_value_prediction := 1,
    exploit_confidence := 1, reward := some 1 }

/-- Concrete current decision for the spec's worked TD-target example
(next prediction `2.0`). -/
def c2Cur : ActionDecision :=
  { step := 1, selected_q_value_prediction := 2, exploit_q_value_prediction := 2,
    exploit_confidence := 3/4 }

/-- Concrete agent for the spec's worked TD-target example: `r = 1`,
`d = 9/10`, observed reward bounds `[0, 1]`. -/
def c2Agent : TDAgent :=
  { discount := fun _ _ => 9/10, stabilize := true,
    max_observable_reward := some 1, min_observable_reward := some 0,
    previous_decision := some c2Prev, current_decision := some c2Cur }

/-- Concrete previous decision with reward `0` for the end-of-episode
example. -/
def c3Prev : ActionDecision :=
  { step := 0, selected_q_value_prediction := 0, exploit_q_value_prediction := 0,
    exploit_confidence := 1, reward := some 0 }

/-- Concrete stabilized agent with discount `1/2` and a pending previous
decision of reward `0`, for the end-of-episode example. -/
def c3Agent : TDAgent :=
  { discount := fun _ _ => 1/2, stabilize := true, previous_decision := some c3Prev }

/-- Concrete fresh agent used to exercise `choose_action` twice in a row. -/
def c8Agent : TDAgent :=
  { discount := fun _ _ => 1/2, stabilize := true }

/-- Concrete action-policy output for the `choose_action` example. -/
def c8Choice : PolicyChoice :=
  { selected_q_value_prediction := 0, exploit_q_value_prediction := 0,
    exploit_confidence := 1 }

/-- The decision the first `choose_action` call of the example installs. -/
def c8Decision : ActionDecision :=
  { step := 0, selected_q_value_prediction := 0, exploit_q_value_prediction := 0,
    exploit_confidence := 1 }

/-- The agent state after the first `choose_action` call of the example. -/
def c8After : TDAgent :=
  { c8Agent with current_decision := some c8Decision }

/-- Concrete fresh stabilized agent for the `reset` bounds example. -/
def c10Agent : TDAgent :=
  { discount := fun _ _ => 1/2, stabilize := true }

/-- The agent state after one `reset` of `c10Agent`: both reward bounds are
set to `0`. -/
def c10After : TDAgent :=
  { c10Agent with
    max_observable_reward := some 0
    min_observable_reward := some 0
    episodes := 1 }

/-- Helper: whatever `_update_previous_decision` does successfully, it only
rewrites the `previous_decision` slot; every other agent field is kept. -/
theorem update_previous_decision_ok_shape (a b : TDAgent)
    (h : a.update_previous_decision = .ok b) :
    b = { a with previous_decision := b.previous_decision } := by
  unfold TDAgent.update_previous_decision at h
  repeat' split at h
  all_goals
    first
      | exact Except.noConfusion h
      | (injection h with h; subst h; rfl)

/-- C2: for an agent with a pending previous decision holding reward `r` and a
current decision holding next prediction `p`, `_update_previous_decision` sets
the previous decision's target to `(r + d * clamp(p, min_r, max_r)) / (1 + d)`
when stabilization is enabled (each clamp applied only when its bound has been
observed) and to `r + d * p` when it is disabled, with the current decision's
exploit confidence as target confidence. -/
theorem td_target_formula (a : TDAgent) (prev cur : ActionDecision) (r : ℚ)
    (hp : a.previous_decision = some prev) (hr : prev.reward = some r)
    (ht : prev.q_value_target = none)
    (hc : a.current_decision = some cur) (hcr : cur.reward = none) :
    a.update_previous_decision =
      .ok { a with
            previous_decision := some (withTarget prev
                (specTDTarget a.stabilize r a.get_discount cur.exploit_q_value_prediction
                  a.min_observable_reward a.max_observable_reward)
                cur.exploit_confidence) } := by
  unfold TDAgent.update_previous_decision withTarget specTDTarget clampToBounds
  simp only [hp, hr, ht, hc, hcr, Option.isSome_none, Bool.false_eq_true, if_false]

/-- Witness for C2, the spec's worked example: `r = 1`, `d = 9/10`, next
prediction `2` clamped to the observed bound `max_r = 1` gives target
`(1 + 9/10 * 1) / (1 + 9/10) = 1`. -/
theorem td_target_formula_witness :
    c2Agent.update_previous_decision =
      .ok { c2Agent with previous_decision := some (withTarget c2Prev 1 (3/4)) } := by
  have h := td_target_formula c2Agent c2Prev c2Cur 1 rfl rfl rfl rfl rfl
  have ht : specTDTarget c2Agent.stabilize 1 c2Agent.get_discount
      c2Cur.exploit_q_value_prediction c2Agent.min_observable_reward
      c2Agent.max_observable_reward = 1 := by
    norm_num [specTDTarget, clampToBounds, c2Agent, c2Cur, c2Prev, TDAgent.get_discount]
  have hcc : c2Cur.exploit_confidence = 3/4 := rfl
  rw [ht, hcc] at h
  exact h

/-- C3: for an agent with a pending previous decision of reward `r` and no
current decision, `reset` closes that decision with target `r / (1 + d)` when
stabilization is enabled and `r` when it is disabled (the end-of-episode value
is treated as zero), at target confidence `1`. -/
theorem td_reset_end_of_episode (a : TDAgent) (prev : ActionDecision) (r : ℚ)
    (hp : a.previous_decision = some prev) (hr : prev.reward = some r)
    (ht : prev.q_value_target = none) (hc : a.current_decision = none) :
    ∃ a', a.reset =
      .ok (some (withTarget prev
            (specEndTarget a.stabilize r (a.discount (a.episodes + 1) a.total_steps)) 1),
           a') := by
  have hu : ({ a with episodes := a.episodes + 1 } : TDAgent).update_previous_decision =
      .ok { a with
            episodes := a.episodes + 1
            previous_decision := some (withTarget prev
                (specEndTarget a.stabilize r (a.discount (a.episodes + 1) a.total_steps))
                1) } := by
    unfold TDAgent.update_previous_decision withTarget specEndTarget TDAgent.get_discount
    simp only [hp, hr, ht, hc, Option.isSome_none, Bool.false_eq_true, if_false]
  simp only [TDAgent.reset]
  rw [hu]
  cases hs : a.stabilize <;> exact ⟨_, rfl⟩

/-- Witness for C3, the spec's example: stabilized agent with `d = 1/2` and a
previous decision of reward `0`, reset with no current decision, closes that
decision with target `0 / (1 + 1/2) = 0`. -/
theorem td_reset_end_of_episode_witness :
    ∃ a', c3Agent.reset = .ok (some (withTarget c3Prev 0 1), a') := by
  obtain ⟨a', ha⟩ := td_reset_end_of_episode c3Agent c3Prev 0 rfl rfl rfl rfl
  have h0 : specEndTarget c3Agent.stabilize 0
      (c3Agent.discount (c3Agent.episodes + 1) c3Agent.total_steps) = 0 := by
    norm_num [specEndTarget, c3Agent]
  rw [h0] at ha
  exact ⟨a', ha⟩

/-- C8: a successful `choose_action` leaves a pending decision, so a second
`choose_action` with no intervening `accept_reward` or `reset` fails the
pending-decision assertion. -/
theorem choose_action_requires_no_pending (a a' : TDAgent) (c c' : PolicyChoice)
    (h : a.choose_action c = .ok a') :
    a'.choose_action c' = .error "assert self._current_decision is None" := by
  unfold TDAgent.choose_action at h
  by_cases hcd : a.current_decision.isSome
  · rw [if_pos hcd] at h
    exact Except.noConfusion h
  · rw [if_neg hcd] at h
    have hshape := update_previous_decision_ok_shape _ _ h
    have hcur : a'.current_decision.isSome = true := by
      conv_lhs => rw [hshape]
      rfl
    unfold TDAgent.choose_action
    rw [if_pos hcur]

/-- Witness for C8: on a fresh agent the first `choose_action` succeeds and
installs a pending decision; calling it again fails. -/
theorem choose_action_requires_no_pending_witness :
    c8Agent.choose_action c8Choice = .ok c8After ∧
    c8After.choose_action c8Choice = .error "assert self._current_decision is None" := by
  have h1 : c8Agent.choose_action c8Choice = .ok c8After := rfl
  exact ⟨h1, choose_action_requires_no_pending c8Agent c8After c8Choice c8Choice h1⟩

/-- C10: with stabilization enabled, every successful `reset` folds an
implicit reward observation of `0.0` into the running bounds, so afterwards
both bounds are set and the clamping range contains zero:
`min_observable_reward <= 0 <= max_observable_reward`. -/
theorem reset_bounds_contain_zero (a : TDAgent) (l : Option ActionDecision) (a' : TDAgent)
    (hs : a.stabilize = true) (h : a.reset = .ok (l, a')) :
    ∃ mn mx, a'.min_observable_reward = some mn ∧ mn ≤ 0 ∧
      a'.max_observable_reward = some mx ∧ 0 ≤ mx := by
  rcases hub : ({ a with episodes := a.episodes + 1 } : TDAgent).update_previous_decision
    with e | b
  · rw [TDAgent.reset.eq_def] at h
    simp only [hub] at h
    exact Except.noConfusion h
  · have hb := update_previous_decision_ok_shape _ _ hub
    have hbs : b.stabilize = true := by
      rw [hb]; exact hs
    have hr : a.reset = .ok (TDAgent.close_previous_decision
        { b with
          max_observable_reward := some (match b.max_observable_reward with
            | none => 0
            | some m => max 0 m),
          min_observable_reward := some (match b.min_observable_reward with
            | none => 0
            | some m => min 0 m) }) := by
      rw [TDAgent.reset.eq_def]
      simp only [hub, hbs, if_true]
    rw [hr] at h
    injection h with h
    injection h with h1 h2
    subst h2
    cases hbm : b.min_observable_reward with
    | none =>
      cases hbx : b.max_observable_reward with
      | none => exact ⟨0, 0, rfl, le_refl 0, rfl, le_refl 0⟩
      | some x => exact ⟨0, max 0 x, rfl, le_refl 0, rfl, le_max_left 0 x⟩
    | some m =>
      cases hbx : b.max_observable_reward with
      | none => exact ⟨min 0 m, 0, rfl, min_le_left 0 m, rfl, le_refl 0⟩
      | some x => exact ⟨min 0 m, max 0 x, rfl, min_le_left 0 m, rfl, le_max_left 0 x⟩

/-- Witness for C10: a fresh stabilized agent, once reset, has both bounds set
to `0`, which satisfies `min <= 0 <= max`. -/
theorem reset_bounds_contain_zero_witness :
    c10Agent.reset = .ok (none, c10After) ∧
    ∃ mn mx, c10After.min_observable_reward = some mn ∧ mn ≤ 0 ∧
      c10After.max_observable_reward = some mx ∧ 0 ≤ mx := by
  have h1 : c10Agent.reset = .ok (none, c10After) := rfl
  exact ⟨h1, reset_bounds_contain_zero c10Agent none c10After rfl h1⟩

/-- Helper: one-step unfolding of `kernelRun`. -/
theorem kernelRun_succ (n : ℕ) : kernelRun (n + 1) =
    match kernelRun n with
    | .error e => .error e
    | .ok (done, cur) =>
      match kernelStep cur with
      | .error e => .error e
      | .ok (cur', fresh) =>
        match cur' with
        | none => .ok (done, some fresh)
        | some pf => .ok (done ++ [pf], some fresh) := by
  rw [kernelRun]

/-- C1: in a run of `n + 1` consecutive steps, every frame that has a
successor has been trained exactly once by its successor's step — it ends with
`trained = true` and its tape closed and cleared — while the terminal frame is
never trained and keeps `trained = false` with its tape open; and `train`
refuses any already-trained frame, so the false-to-true transition can only
happen once. -/
theorem frame_training_lifecycle :
    (∀ n : ℕ, kernelRun (n + 1) =
      .ok (List.replicate n { tapeOpen := false, trained := true }, some newLFrame))
  ∧ ∀ f : LFrame, f.trained = true →
      trainFrame f = .error "assert not previous_frame.trained" := by
  constructor
  · intro n
    induction n with
    | zero => rfl
    | succ n ih =>
      rw [kernelRun_succ, ih, List.replicate_succ']
      rfl
  · intro f hf
    unfold trainFrame
    rw [if_pos hf]

/-- Witness for C1: a three-step run trains the first two frames (tapes
closed) and leaves the terminal frame untrained with its tape open, and
training an already-trained frame is a fatal assertion. -/
theorem frame_training_lifecycle_witness :
    kernelRun 3 = .ok ([{ tapeOpen := false, trained := true },
                        { tapeOpen := false, trained := true }], some newLFrame)
  ∧ trainFrame { tapeOpen := false, trained := true } =
      .error "assert not previous_frame.trained" := by
  constructor
  · have h := frame_training_lifecycle.1 2
    simpa using h
  · exact frame_training_lifecycle.2 { tapeOpen := false, trained := true } rfl

/-- Helper: the loss-collecting loop of `StateKernel.get_loss` accumulates
exactly the scaled losses and total scale of the contributing modules. -/
theorem get_loss_foldl (modules : List KernelModule) (accL : List ℚ) (accS : ℚ) :
    modules.foldl
      (fun (acc : List ℚ × ℚ) m =>
        match m.get_loss with
        | some module_loss =>
          if 0 < m.loss_scale then
            (acc.1 ++ [m.loss_scale * module_loss], acc.2 + m.loss_scale)
          else acc
        | none => acc)
      (accL, accS) =
    (accL ++ (contributingLosses modules).map (fun p => p.1 * p.2),
     accS + ((contributingLosses modules).map Prod.fst).sum) := by
  induction modules generalizing accL accS with
  | nil => simp [contributingLosses]
  | cons m ms ih =>
    cases hm : m.get_loss with
    | none => simp [contributingLosses, hm, ih, List.filterMap_cons]
    | some l =>
      by_cases hscale : 0 < m.loss_scale
      · simp [contributingLosses, hm, hscale, ih, List.filterMap_cons, add_assoc]
      · simp [contributingLosses, hm, hscale, ih, List.filterMap_cons]

/-- Helper: every contributing module has a strictly positive loss scale. -/
theorem contributingLosses_pos (modules : List KernelModule) :
    ∀ p ∈ contributingLosses modules, 0 < p.1 := by
  intro p hp
  simp only [contributingLosses, List.mem_filterMap] at hp
  obtain ⟨m, _, he⟩ := hp
  cases hm : m.get_loss with
  | none => rw [hm] at he; exact Option.noConfusion he
  | some l =>
    rw [hm] at he
    by_cases hscale : 0 < m.loss_scale
    · simp only [hscale, if_true, Option.some.injEq] at he
      subst he
      exact hscale
    · simp [hscale] at he

/-- C4: `StateKernel.get_loss` returns `None` when no module contributes,
otherwise the scale-weighted average — the sum of `scale * loss` over the
contributing modules (non-`None` loss, scale strictly positive) divided by the
sum of their scales; with exactly one contributing module the scale cancels
and the combined loss is that module's raw loss. -/
theorem get_loss_weighted_average (modules : List KernelModule) :
    (contributingLosses modules = [] → StateKernel.get_loss modules = .ok none)
  ∧ (contributingLosses modules ≠ [] →
      StateKernel.get_loss modules =
        .ok (some (((contributingLosses modules).map (fun p => p.1 * p.2)).sum /
                   ((contributingLosses modules).map Prod.fst).sum)))
  ∧ ∀ s l, contributingLosses modules = [(s, l)] →
      StateKernel.get_loss modules = .ok (some l) := by
  have hpos := contributingLosses_pos modules
  have hacc := get_loss_foldl modules [] 0
  have hS : contributingLosses modules ≠ [] →
      0 < ((contributingLosses modules).map Prod.fst).sum := by
    intro hC
    cases hc : contributingLosses modules with
    | nil => exact absurd hc hC
    | cons p C =>
      have hp0 : 0 < p.1 := hpos p (hc ▸ List.mem_cons_self p C)
      have hrest : 0 ≤ (C.map Prod.fst).sum := by
        apply List.sum_nonneg
        intro x hx
        simp only [List.mem_map] at hx
        obtain ⟨q, hq, rfl⟩ := hx
        exact le_of_lt (hpos q (hc ▸ List.mem_cons_of_mem p hq))
      rw [List.map_cons, List.sum_cons]
      linarith
  refine ⟨?_, ?_, ?_⟩
  · intro hC
    simp only [StateKernel.get_loss]
    rw [hacc, hC]
    simp
  · intro hC
    have hS' := hS hC
    simp only [StateKernel.get_loss]
    rw [hacc]
    simp only [List.nil_append, zero_add]
    rw [if_neg (not_not_intro (Or.inl hS'))]
    cases hc : contributingLosses modules with
    | nil => exact absurd hc hC
    | cons p C =>
      cases C with
      | nil => simp [hc]
      | cons q C' => simp [hc]
  · intro s l hC
    have hs0 : 0 < s := by
      have := hpos (s, l) (by rw [hC]; exact List.mem_singleton_self _)
      simpa using this
    have hS' := hS (by rw [hC]; exact List.cons_ne_nil _ _)
    simp only [StateKernel.get_loss]
    rw [hacc, hC]
    simp only [List.map_cons, List.map_nil, List.sum_cons, List.sum_nil,
      List.nil_append, zero_add, add_zero]
    rw [if_neg (not_not_intro (Or.inl hs0))]
    rw [mul_div_cancel_left₀ _ (ne_of_gt hs0)]

/-- Witness for C4: with one module contributing (loss `6`, scale `1/2`), one
module returning no loss, and one with scale `0`, the combined loss equals the
contributing module's raw loss `6`. -/
theorem get_loss_weighted_average_witness :
    contributingLosses
      [{ get_loss := none, loss_scale := 1 },
       { get_loss := some 6, loss_scale := 2 },
       { get_loss := some 4, loss_scale := 0 }] = [(2, 6)] ∧
    StateKernel.get_loss
      [{ get_loss := none, loss_scale := 1 },
       { get_loss := some 6, loss_scale := 2 },
       { get_loss := some 4, loss_scale := 0 }] = .ok (some 6) := by
  constructor
  · decide
  · exact (get_loss_weighted_average _).2.2 2 6 (by decide)

/-- C5: whenever `StateKernel.predict_state` succeeds, the recorded current
state holds no NaN and every component lies within `[-1e6, 1e6]` (a NaN in the
prediction is a fatal assertion before anything is recorded). -/
theorem predict_state_safety (frame frame' : KFrame) (provider_result : Option (List TVal))
    (h : StateKernel.predict_state frame provider_result = .ok frame') :
    ∃ st, frame'.current_state = some st ∧
      ∀ v ∈ st, ∃ q, v = TVal.fin q ∧ -1000000 ≤ q ∧ q ≤ 1000000 := by
  unfold StateKernel.predict_state at h
  split at h
  · exact Except.noConfusion h
  · split at h
    · exact Except.noConfusion h
    · split at h
      · exact Except.noConfusion h
      · rename_i new_state
        by_cases hnan : new_state.any TVal.isNan
        · rw [if_pos hnan] at h
          exact Except.noConfusion h
        · rw [if_neg hnan] at h
          injection h with h
          refine ⟨new_state.map (TVal.clip (-1000000) 1000000), ?_, ?_⟩
          · rw [← h]
          · intro v hv
            rw [List.mem_map] at hv
            obtain ⟨w, hw, rfl⟩ := hv
            cases w with
            | nan =>
              exfalso
              apply hnan
              rw [List.any_eq_true]
              exact ⟨TVal.nan, hw, rfl⟩
            | fin q =>
              refine ⟨min (max q (-1000000)) 1000000, rfl, ?_, min_le_right _ _⟩
              exact le_min (le_trans (by norm_num) (le_max_right q (-1000000))) (by norm_num)

/-- Witness for C5: a prediction holding `5`, `2000000` and `-7` is recorded
with the out-of-range entry clamped to `1000000`, and the recorded state
satisfies the safety property. -/
theorem predict_state_safety_witness :
    StateKernel.predict_state
      { input_tensors := some [[TVal.fin 0]], current_state := none }
      (some [TVal.fin 5, TVal.fin 2000000, TVal.fin (-7)]) =
      .ok { input_tensors := some [[TVal.fin 0]],
            current_state := some [TVal.fin 5, TVal.fin 1000000, TVal.fin (-7)] } ∧
    ∃ st, ({ input_tensors := some [[TVal.fin 0]],
             current_state := some [TVal.fin 5, TVal.fin 1000000, TVal.fin (-7)] }
             : KFrame).current_state = some st ∧
      ∀ v ∈ st, ∃ q, v = TVal.fin q ∧ -1000000 ≤ q ∧ q ≤ 1000000 := by
  have h1 : StateKernel.predict_state
      { input_tensors := some [[TVal.fin 0]], current_state := none }
      (some [TVal.fin 5, TVal.fin 2000000, TVal.fin (-7)]) =
      .ok { input_tensors := some [[TVal.fin 0]],
            current_state := some [TVal.fin 5, TVal.fin 1000000, TVal.fin (-7)] } := by
    simp only [StateKernel.predict_state, TVal.clip, List.map_cons, List.map_nil]
    norm_num [min_def, max_def, TVal.isNan]
  exact ⟨h1, predict_state_safety _ _ _ h1⟩

/-- C6: when at least one gradient-providing module returns a gradient, the
gradient recorded by `StateKernel.step` is the arithmetic mean of the returned
gradients (sum divided by count, not the bare sum); in particular when all
returned gradients are the same constant `c`, the recorded gradient is `c`
regardless of how many modules contributed. -/
theorem step_state_gradient_mean (k : ℕ) (grads : List (Option (QVec k)))
    (h : grads.filterMap id ≠ []) :
    aggregateStateGradients k grads =
      some (fun i => ((grads.filterMap id).map (fun g => g i)).sum /
                     ((grads.filterMap id).length : ℚ))
  ∧ ∀ c : QVec k, (∀ g ∈ grads.filterMap id, g = c) →
      aggregateStateGradients k grads = some c := by
  have hn : ((grads.filterMap id).length : ℚ) ≠ 0 :=
    Nat.cast_ne_zero.mpr (List.length_pos.mpr h).ne'
  have hmean : aggregateStateGradients k grads =
      some (fun i => ((grads.filterMap id).map (fun g => g i)).sum /
                     ((grads.filterMap id).length : ℚ)) := by
    unfold aggregateStateGradients
    rw [if_neg (by simp [List.isEmpty_iff, h])]
  refine ⟨hmean, ?_⟩
  intro c hc
  rw [hmean]
  congr 1
  funext i
  have hall : ∀ x ∈ (grads.filterMap id).map (fun g => g i), x = c i := by
    intro x hx
    rw [List.mem_map] at hx
    obtain ⟨g, hg, rfl⟩ := hx
    rw [hc g hg]
  rw [List.sum_eq_card_nsmul _ _ hall, List.length_map, nsmul_eq_mul]
  exact mul_div_cancel_left₀ _ hn

/-- Witness for C6: three modules, one returning no gradient and two returning
the constant gradient `5`, produce the recorded gradient `5` (the mean), not
`10` (the sum). -/
theorem step_state_gradient_mean_witness :
    aggregateStateGradients 1
      [some (fun _ : Fin 1 => (5 : ℚ)), none, some (fun _ : Fin 1 => (5 : ℚ))] =
      some (fun _ : Fin 1 => (5 : ℚ)) := by
  refine (step_state_gradient_mean 1 _ ?_).2 (fun _ => (5 : ℚ)) ?_
  · simp
  · intro g hg
    have hred : List.filterMap id
        [some (fun _ : Fin 1 => (5 : ℚ)), none, some (fun _ : Fin 1 => (5 : ℚ))] =
        [fun _ : Fin 1 => (5 : ℚ), fun _ : Fin 1 => (5 : ℚ)] := rfl
    rw [hred] at hg
    rcases List.mem_cons.mp hg with h | h
    · exact h
    · exact List.mem_singleton.mp h

/-- Counterexample for C7 as stated: assigning a second input-attention
provider is NOT an error — the setter (kernel.py lines 196-198) has no check
and silently replaces the designated module `0` with module `1`. -/
theorem input_attention_reassignment_not_rejected :
    KernelProviders.set_input_attention_provider
      { state_prediction_provider := none, input_attention_provider := some 0,
        retroactive_gradient_provider := none } 1 =
      .ok { state_prediction_provider := none, input_attention_provider := some 1,
            retroactive_gradient_provider := none } := rfl

/-- C7 (amended): assigning a second state-prediction provider when one is
already designated is an error, while assigning a second input-attention
provider is not checked — the setter silently replaces the existing
designation. -/
theorem provider_designation (k : KernelProviders) (m : ℕ) :
    (k.state_prediction_provider.isSome = true →
      k.set_state_prediction_provider m =
        .error "assert self._state_prediction_provider is None")
  ∧ k.set_input_attention_provider m =
      .ok { k with input_attention_provider := some m } := by
  constructor
  · intro h
    unfold KernelProviders.set_state_prediction_provider
    rw [if_pos h]
  · rfl

/-- Witness for C7 (amended): with a state-prediction provider designated,
assigning another fails; assigning an input-attention provider over the same
kernel state succeeds and stores the new module. -/
theorem provider_designation_witness :
    KernelProviders.set_state_prediction_provider
      { state_prediction_provider := some 0, input_attention_provider := none,
        retroactive_gradient_provider := none } 1 =
      .error "assert self._state_prediction_provider is None" ∧
    KernelProviders.set_input_attention_provider
      { state_prediction_provider := some 0, input_attention_provider := none,
        retroactive_gradient_provider := none } 1 =
      .ok { state_prediction_provider := some 0, input_attention_provider := some 1,
            retroactive_gradient_provider := none } :=
  ⟨(provider_designation _ 1).1 rfl, (provider_designation _ 1).2⟩

/-- Helper: a successful `configure` stores the configuration. -/
theorem configure_sets_config (k k' : KernelState) (cfg : ℕ)
    (h : k.configure cfg = .ok k') : k'.config = some cfg := by
  simp only [KernelState.configure] at h
  split at h
  · exact Except.noConfusion h
  · injection h with h
    subst h
    repeat' split
    all_goals rfl

/-- C9: configuration is one-shot — once `configure` has succeeded on a
kernel, any further `configure` call fails with the
"Kernel is already configured." assertion. -/
theorem configure_is_one_shot (k k' : KernelState) (cfg cfg' : ℕ)
    (h : k.configure cfg = .ok k') :
    k'.configure cfg' = .error "Kernel is already configured." := by
  have hc := configure_sets_config k k' cfg h
  simp only [KernelState.configure]
  rw [if_pos (by rw [hc]; rfl)]

/-- Witness for C9: configuring a fresh kernel succeeds (installing the
default providers and initial state), and configuring the result again
fails. -/
theorem configure_is_one_shot_witness :
    KernelState.configure {} 7 =
      .ok { config := some 7,
            providers := { state_prediction_provider := some 1,
                           input_attention_provider := some 0,
                           retroactive_gradient_provider := none },
            initial_state_set := true } ∧
    KernelState.configure
      { config := some 7,
        providers := { state_prediction_provider := some 1,
                       input_attention_provider := some 0,
                       retroactive_gradient_provider := none },
        initial_state_set := true } 8 =
      .error "Kernel is already configured." := by
  have h1 : KernelState.configure {} 7 =
      .ok { config := some 7,
            providers := { state_prediction_provider := some 1,
                           input_attention_provider := some 0,
                           retroactive_gradient_provider := none },
            initial_state_set := true } := rfl
  exact ⟨h1, configure_is_one_shot _ _ 7 8 h1⟩
